import Mathlib

/-!
Verification of the RAPT telemetry dashboard against its specification.

The serverless function (`netlify/functions/hydrometers`) fetches devices and
telemetry, resolves an Original Gravity (OG) baseline per device through a
3-tier fallback, and enriches each telemetry sample with derived brewing
metrics.  The frontend (`src/main.js`) classifies temperatures against a
4-point threshold configuration (with a cold-crash override in its second
variant) and selects the latest reading for display.

JavaScript numbers are modelled as rationals (`ℚ`), timestamps
(millisecond epoch values obtained from `new Date(...)`) as integers, and
fallible/optional values as `Option`.  `Array.prototype.sort` (stable per
ECMAScript) is modelled by Mathlib's stable `List.insertionSort`.
-/

namespace Rapt

/-- A raw telemetry sample as returned by the vendor API
(`createdOn` is the epoch-millisecond value of the timestamp). -/
structure RawSample where
  createdOn : Int
  gravity : ℚ
  temperature : ℚ
  battery : ℚ
  rssi : Int
deriving DecidableEq, Repr

/-- An enriched sample produced by the serverless function in
`src/unnamed/part_000` lines 216-224: the raw sample's fields spread into a
new object plus the derived `abv`. -/
structure EnrichedSample where
  createdOn : Int
  gravity : ℚ
  temperature : ℚ
  battery : ℚ
  rssi : Int
  abv : ℚ
deriving DecidableEq, Repr

/-- A profile session as seen by the OG resolver; `originalGravity` may be
absent from the API response. -/
structure ProfileSession where
  originalGravity : Option ℚ
deriving DecidableEq, Repr

/-- A device record; `activeProfileSession` holds the session id when set,
`telemetry` is empty until the enrichment pass attaches data. -/
structure Device where
  id : Nat
  activeProfileSession : Option Nat
  telemetry : List EnrichedSample := []
deriving DecidableEq, Repr

/-- `parseFloat(x.toFixed(2))` for the values produced here: round to the
nearest multiple of 1/100, ties towards the larger value (ECMAScript
`toFixed` picks the larger candidate on ties). -/
def roundTo2 (q : ℚ) : ℚ :=
  ((Int.floor (q * 100 + 1/2) : ℤ) : ℚ) / 100

/-- The ABV computation of `src/unnamed/part_000` lines 217-222:
`ogSG = og/1000`, `fgSG = gravity/1000`,
`abv = parseFloat(Math.max(0, (ogSG - fgSG) * 131.25).toFixed(2))`. -/
def computeAbv (og gravity : ℚ) : ℚ :=
  roundTo2 (max 0 ((og / 1000 - gravity / 1000) * (131.25 : ℚ)))

/-- One step of the enrichment map of `src/unnamed/part_000` lines 216-224:
spread the raw sample and attach `abv`. -/
def enrichSample (og : ℚ) (t : RawSample) : EnrichedSample :=
  { createdOn := t.createdOn, gravity := t.gravity, temperature := t.temperature,
    battery := t.battery, rssi := t.rssi, abv := computeAbv og t.gravity }

/-- `telemetry.map(t => ({...t, abv: ...}))` of `src/unnamed/part_000`
lines 216-224. -/
def enrichTelemetry (og : ℚ) (tel : List RawSample) : List EnrichedSample :=
  tel.map (enrichSample og)

/-- Ascending order on raw samples by `createdOn`, the comparator
`(a, b) => new Date(a.createdOn) - new Date(b.createdOn)` of
`src/unnamed/part_000` lines 209-211. -/
def byDate (a b : RawSample) : Prop := a.createdOn ≤ b.createdOn

instance : DecidableRel byDate :=
  fun a b => inferInstanceAs (Decidable (a.createdOn ≤ b.createdOn))

instance : IsTotal RawSample byDate := ⟨fun a b => Int.le_total a.createdOn b.createdOn⟩

instance : IsTrans RawSample byDate := ⟨fun _ _ _ hab hbc => le_trans hab hbc⟩

/-- `[...telemetry].sort((a, b) => new Date(a.createdOn) - new Date(b.createdOn))`
(`src/unnamed/part_000` lines 209-211): a stable ascending sort by timestamp. -/
def sortByDateAsc (tel : List RawSample) : List RawSample :=
  List.insertionSort byDate tel

/-- Tier 1 of OG resolution (`src/unnamed/part_000` lines 194-201): the value
taken from the looked-up profile session.  The JS guard
`if (session && session.originalGravity)` tests truthiness, so an
`originalGravity` of `0` is skipped exactly like a missing one. -/
def sessionOG : Option ProfileSession → Option ℚ
  | some s =>
    match s.originalGravity with
    | some v => if v = 0 then none else some v
    | none => none
  | none => none

/-- The 3-tier OG resolution of `src/unnamed/part_000` lines 192-214:
profile-session OG, else manual OG from config (`if (!og && CONFIG.manualOriginalGravity)`,
again a truthiness test), else the gravity of the first element of the
telemetry stably sorted by `createdOn`.  Returns `none` only when the
telemetry is empty (in the source this code runs only for non-empty
telemetry, so the final tier always succeeds there). -/
def resolveOG (sessionLookup : Option ProfileSession) (manualOG : Option ℚ)
    (tel : List RawSample) : Option ℚ :=
  let og1 := sessionOG sessionLookup
  let og2 :=
    match og1 with
    | some v => some v
    | none =>
      match manualOG with
      | some m => if m = 0 then none else some m
      | none => none
  match og2 with
  | some v => some v
  | none =>
    match sortByDateAsc tel with
    | [] => none
    | s :: _ => some s.gravity

/-- `fetchTelemetry` (`src/unnamed/part_000` lines 90-132): the windowed
endpoint is tried first; on failure the unwindowed endpoint is tried; if both
fail the function returns `[]`.  Each endpoint's outcome is modelled as an
`Option` (`none` = the HTTP call failed). -/
def fetchTelemetry (windowed unwindowed : Option (List RawSample)) : List RawSample :=
  match windowed with
  | some d => d
  | none =>
    match unwindowed with
    | some d => d
    | none => []

/-- The per-device body of the loop in `fetchHydrometers`
(`src/unnamed/part_000` lines 184-226): if the fetched telemetry is empty the
device is left untouched (no OG resolution, no metrics); otherwise the OG is
resolved and the enriched telemetry attached. -/
def processDevice (sessionLookup : Option ProfileSession) (manualOG : Option ℚ)
    (telemetry : List RawSample) (d : Device) : Device :=
  if telemetry.isEmpty then d
  else
    match resolveOG sessionLookup manualOG telemetry with
    | some og => { d with telemetry := enrichTelemetry og telemetry }
    | none => d

/-- `fetchHydrometers` (`src/unnamed/part_000` lines 166-233): every device of
the fetched list is processed and returned; the profile session is looked up
only when the device's `activeProfileSession.id` is set. -/
def fetchHydrometers (devices : List Device) (telemetryOf : Nat → List RawSample)
    (sessionOf : Nat → Option ProfileSession) (manualOG : Option ℚ) : List Device :=
  devices.map fun d =>
    processDevice (d.activeProfileSession.bind sessionOf) manualOG (telemetryOf d.id) d

/-- Temperature severity at the presentation boundary: `danger` is rendered
red, `warning` orange, `good` green. -/
inductive Severity where
  | good
  | warning
  | danger
deriving DecidableEq, Repr

/-- The 4-point temperature threshold configuration of the second frontend
variant (`src/src/main.js` lines 526-537, defaults 18/20/26/28). -/
structure ThresholdConfig where
  tempDangerMin : ℚ
  tempWarningMin : ℚ
  tempWarningMax : ℚ
  tempDangerMax : ℚ
deriving DecidableEq, Repr

/-- The threshold classification of `createChart`'s `tempColors`
(`src/src/main.js` lines 760-783):
`isLowTemp = temp < dangerMin`, `isHighTemp = temp > dangerMax`;
`(isLowTemp && !coldCrashMode) || isHighTemp` is danger, the two warning
bands are warning, everything else is good. -/
def classify (temp : ℚ) (cfg : ThresholdConfig) (coldCrash : Bool) : Severity :=
  if (temp < cfg.tempDangerMin ∧ coldCrash = false) ∨ temp > cfg.tempDangerMax then
    Severity.danger
  else if (cfg.tempDangerMin ≤ temp ∧ temp < cfg.tempWarningMin) ∨
      (cfg.tempWarningMax < temp ∧ temp ≤ cfg.tempDangerMax) then
    Severity.warning
  else
    Severity.good

/-- The temperature card classification of `displayDevices`
(`src/src/main.js` lines 994-1009).  It is written as a four-branch cascade
whose final `else` leaves the neutral `info-card` class (modelled as `none`);
under the threshold ordering invariant that branch is unreachable. -/
def displayTempClass (temp : ℚ) (cfg : ThresholdConfig) (coldCrash : Bool) : Option Severity :=
  if (temp < cfg.tempDangerMin ∧ coldCrash = false) ∨ temp > cfg.tempDangerMax then
    some Severity.danger
  else if (cfg.tempDangerMin ≤ temp ∧ temp < cfg.tempWarningMin) ∨
      (cfg.tempWarningMax < temp ∧ temp ≤ cfg.tempDangerMax) then
    some Severity.warning
  else if cfg.tempWarningMin ≤ temp ∧ temp ≤ cfg.tempWarningMax then
    some Severity.good
  else if coldCrash = true ∧ temp < cfg.tempDangerMin then
    some Severity.good
  else
    none

/-- Descending order on enriched samples by `createdOn`, the comparator
`(a, b) => new Date(b.createdOn) - new Date(a.createdOn)` of
`src/src/main.js` lines 972-974. -/
def byDateDesc (a b : EnrichedSample) : Prop := b.createdOn ≤ a.createdOn

instance : DecidableRel byDateDesc :=
  fun a b => inferInstanceAs (Decidable (b.createdOn ≤ a.createdOn))

instance : IsTotal EnrichedSample byDateDesc := ⟨fun a b => Int.le_total b.createdOn a.createdOn⟩

instance : IsTrans EnrichedSample byDateDesc := ⟨fun _ _ _ hab hbc => le_trans hbc hab⟩

/-- The latest-reading selection of `displayDevices` (`src/src/main.js`
lines 972-974): `device.telemetry.sort((a, b) => new Date(b.createdOn) -
new Date(a.createdOn))[0]`.  `Array.prototype.sort` sorts the array itself
(stable, descending here) and returns that same array, so after one display
pass the device's telemetry is the descending-sorted sequence; with empty or
absent telemetry the conditional short-circuits and nothing is sorted. -/
def displayPass (d : Device) : Device :=
  if d.telemetry.isEmpty then d
  else { d with telemetry := List.insertionSort byDateDesc d.telemetry }

/-! ### Second-variant metric derivation, modelled from the spec

The second variant of the serverless function (the one whose frontend is
`src/src/main.js` lines 520-1177, consuming `attenuation` and
`gravityVelocity` and a `config` object) is not among the provided source
files — only its consumer is.  Its derivation engine is therefore modelled
from the specification (§4.2). -/

/-- An enriched sample of the second variant: the raw fields plus `abv`,
`attenuation` and the optional `gravityVelocity`. -/
structure EnrichedSampleV2 where
  createdOn : Int
  gravity : ℚ
  temperature : ℚ
  abv : ℚ
  attenuation : ℚ
  gravityVelocity : Option ℚ
deriving DecidableEq, Repr

/-- Modelled from the spec: the attenuation computation of the missing
second-variant serverless function, §4.2: `ogSG = og/1000`,
`fgSG = gravity/1000`, `attenuation = ((ogSG - fgSG) / (ogSG - 1.0)) * 100`,
not clamped, and defined as 0 in the degenerate case `ogSG == 1.0`. -/
def computeAttenuation (og gravity : ℚ) : ℚ :=
  let ogSG := og / 1000
  let fgSG := gravity / 1000
  if ogSG = 1 then 0 else ((ogSG - fgSG) / (ogSG - 1)) * 100

/-- Milliseconds per day, the conversion factor from epoch-millisecond
timestamp differences to days. -/
def msPerDay : ℚ := 86400000

/-- Modelled from the spec: the gravity-velocity between two consecutive
chronologically-sorted samples (§4.2), in gravity points per day; undefined
(`none`) when the two timestamps coincide. -/
def pointsPerDay (prev cur : RawSample) : Option ℚ :=
  if cur.createdOn = prev.createdOn then none
  else some ((cur.gravity - prev.gravity) / ((((cur.createdOn : ℚ)) - ((prev.createdOn : ℚ))) / msPerDay))

/-- Modelled from the spec: one enriched sample of the second variant;
`prev` is the chronologically preceding sample when one exists, and
`gravityVelocity` is omitted (`none`) when there is none. -/
def enrichV2 (og : ℚ) (prev : Option RawSample) (t : RawSample) : EnrichedSampleV2 :=
  { createdOn := t.createdOn, gravity := t.gravity, temperature := t.temperature,
    abv := computeAbv og t.gravity,
    attenuation := computeAttenuation og t.gravity,
    gravityVelocity := prev.bind fun p => pointsPerDay p t }

/-- Modelled from the spec: the derivation loop of the second variant over a
chronologically ordered sample list, threading the previous sample. -/
def deriveV2Aux (og : ℚ) (prev : Option RawSample) : List RawSample → List EnrichedSampleV2
  | [] => []
  | t :: rest => enrichV2 og prev t :: deriveV2Aux og (some t) rest

/-- Modelled from the spec: `derive(samples, og)` of §4.2 for the second
variant, over an already chronologically ordered sequence of raw samples
(the engine's contract takes an ordered sequence). -/
def deriveV2 (og : ℚ) (samples : List RawSample) : List EnrichedSampleV2 :=
  deriveV2Aux og none samples

/-! ### Claim theorems -/

/-- Claim C3: every enriched sample's `abv` is
`max(0, (og/1000 - gravity/1000) * 131.25)` rounded to 2 decimal places, and
`abv` is never negative, even when the sample's gravity exceeds the resolved
OG. -/
theorem c3_abv_clamped_rounded (og : ℚ) (tel : List RawSample) :
    ∀ e ∈ enrichTelemetry og tel,
      e.abv = roundTo2 (max 0 ((og / 1000 - e.gravity / 1000) * (131.25 : ℚ))) ∧ 0 ≤ e.abv := by
  intro e he
  obtain ⟨t, _, rfl⟩ := List.mem_map.mp he
  refine ⟨rfl, ?_⟩
  show 0 ≤ computeAbv og t.gravity
  unfold computeAbv roundTo2
  have h1 : (0 : ℚ) ≤ max 0 ((og / 1000 - t.gravity / 1000) * (131.25 : ℚ)) :=
    le_max_left _ _
  have h2 : (0 : ℤ) ≤ Int.floor (max 0 ((og / 1000 - t.gravity / 1000) * (131.25 : ℚ)) * 100 + 1/2) := by
    apply Int.floor_nonneg.mpr
    nlinarith
  have h3 : (0 : ℚ) ≤ ((Int.floor (max 0 ((og / 1000 - t.gravity / 1000) * (131.25 : ℚ)) * 100 + 1/2) : ℤ) : ℚ) := by
    exact_mod_cast h2
  positivity

/-- Witness for C3 at OG 1063 and a sample of gravity 1010. -/
theorem c3_witness :
    (enrichSample 1063 ⟨0, 1010, 20, 100, 0⟩).abv
        = roundTo2 (max 0 ((1063 / 1000 - (enrichSample 1063 ⟨0, 1010, 20, 100, 0⟩).gravity / 1000) * (131.25 : ℚ)))
      ∧ 0 ≤ (enrichSample 1063 ⟨0, 1010, 20, 100, 0⟩).abv :=
  c3_abv_clamped_rounded 1063 [⟨0, 1010, 20, 100, 0⟩] _ (by simp [enrichTelemetry])

/-- Claim C7: telemetry fetching tries the windowed call first (its data is
returned and the fallback is unused), falls back to the unwindowed call on
failure, and treats a double failure as empty telemetry; a device whose both
calls failed is processed as a no-data device, left unchanged in the output
rather than aborting the request. -/
theorem c7_telemetry_fallback (w u : List RawSample) :
    fetchTelemetry (some w) (some u) = w ∧
    fetchTelemetry (some w) none = w ∧
    fetchTelemetry none (some u) = u ∧
    fetchTelemetry none none = [] ∧
    ∀ (sl : Option ProfileSession) (m : Option ℚ) (d : Device),
      processDevice sl m (fetchTelemetry none none) d = d :=
  ⟨rfl, rfl, rfl, rfl, fun _ _ _ => rfl⟩

/-- Claim C9: falsy OG candidates are treated as absent — a profile-session
`originalGravity` of 0 or a missing one behaves exactly like no session, and
a manual OG of 0 behaves exactly like no manual OG, each tier falling
through to the next. -/
theorem c9_falsy_og_candidates_skipped (m : Option ℚ) (sl : Option ProfileSession)
    (tel : List RawSample) :
    resolveOG (some ⟨some 0⟩) m tel = resolveOG none m tel ∧
    resolveOG (some ⟨none⟩) m tel = resolveOG none m tel ∧
    resolveOG sl (some 0) tel = resolveOG sl none tel := by
  refine ⟨rfl, rfl, ?_⟩
  simp only [resolveOG]
  cases sessionOG sl <;> simp

/-- Claim C2: OG resolution follows the strict 3-tier priority — a truthy
profile-session `originalGravity` wins over everything, and with no usable
session value a truthy manual OG wins over the telemetry fallback. -/
theorem c2_og_priority (s : ProfileSession) (v : ℚ) (m : Option ℚ)
    (sl : Option ProfileSession) (mv : ℚ) (tel : List RawSample) :
    (s.originalGravity = some v → v ≠ 0 → resolveOG (some s) m tel = some v) ∧
    (sessionOG sl = none → mv ≠ 0 → resolveOG sl (some mv) tel = some mv) := by
  constructor
  · intro hog hv
    simp [resolveOG, sessionOG, hog, hv]
  · intro hnone hmv
    simp [resolveOG, hnone, hmv]

/-- Witness for C2: a session OG of 1070 beats a manual OG of 1050 and the
telemetry; with no session the manual OG of 1050 beats the telemetry. -/
theorem c2_witness :
    resolveOG (some ⟨some 1070⟩) (some 1050) [⟨0, 1040, 20, 100, 0⟩] = some 1070 ∧
    resolveOG none (some 1050) [⟨0, 1040, 20, 100, 0⟩] = some 1050 :=
  ⟨(c2_og_priority ⟨some 1070⟩ 1070 (some 1050) none 1050 [⟨0, 1040, 20, 100, 0⟩]).1 rfl
      (by norm_num),
   (c2_og_priority ⟨some 1070⟩ 1070 (some 1050) none 1050 [⟨0, 1040, 20, 100, 0⟩]).2 rfl
      (by norm_num)⟩

/-- Claim C6: a device with empty telemetry is skipped entirely — no OG
resolution, no derived metrics, the device is returned unchanged (its
telemetry stays empty) — and it still appears in the output of the (total,
non-throwing) enrichment pass, whose output has one entry per device. -/
theorem c6_empty_telemetry_skipped (sl : Option ProfileSession) (m : Option ℚ) (d : Device)
    (devices : List Device) (telemetryOf : Nat → List RawSample)
    (sessionOf : Nat → Option ProfileSession) :
    processDevice sl m [] d = d ∧
    (fetchHydrometers devices telemetryOf sessionOf m).length = devices.length ∧
    (∀ d₀ ∈ devices, telemetryOf d₀.id = [] →
      d₀ ∈ fetchHydrometers devices telemetryOf sessionOf m) := by
  refine ⟨rfl, List.length_map _ _, ?_⟩
  intro d₀ hd₀ htel
  have hfix : processDevice (d₀.activeProfileSession.bind sessionOf) m (telemetryOf d₀.id) d₀ = d₀ := by
    rw [htel]
    rfl
  exact List.mem_map.mpr ⟨d₀, hd₀, hfix⟩

/-- Witness for C6: a single device whose telemetry fetch returned nothing
is returned unchanged and present in the output. -/
theorem c6_witness :
    processDevice none none [] { id := 1, activeProfileSession := none } =
      { id := 1, activeProfileSession := none } ∧
    (fetchHydrometers [{ id := 1, activeProfileSession := none }] (fun _ => []) (fun _ => none) none).length = 1 ∧
    ({ id := 1, activeProfileSession := none } : Device) ∈
      fetchHydrometers [{ id := 1, activeProfileSession := none }] (fun _ => []) (fun _ => none) none := by
  have h := c6_empty_telemetry_skipped none none { id := 1, activeProfileSession := none }
    [{ id := 1, activeProfileSession := none }] (fun _ => []) (fun _ => none)
  exact ⟨h.1, h.2.1, h.2.2 _ (by simp) rfl⟩

/-- Claim C4: threshold classification is a pure function of
(temperature, config, coldCrash): with cold crash active everything below
`dangerMin` is Good; otherwise below `dangerMin` or above `dangerMax` is
Danger; the bands `[dangerMin, warningMin)` and `(warningMax, dangerMax]`
are Warning; `[warningMin, warningMax]` is Good; cold crash never affects
the high side.  Both code sites (the chart colors and the device card
class) implement this same function, and the four concrete cases for config
{18, 20, 26, 28} hold. -/
theorem c4_threshold_classification (cfg : ThresholdConfig) (t : ℚ) (cc : Bool)
    (h1 : cfg.tempDangerMin ≤ cfg.tempWarningMin)
    (h2 : cfg.tempWarningMin ≤ cfg.tempWarningMax)
    (h3 : cfg.tempWarningMax ≤ cfg.tempDangerMax) :
    (cc = true → t < cfg.tempDangerMin → classify t cfg cc = Severity.good) ∧
    (cc = false → t < cfg.tempDangerMin → classify t cfg cc = Severity.danger) ∧
    (t > cfg.tempDangerMax → classify t cfg cc = Severity.danger) ∧
    (cfg.tempDangerMin ≤ t → t < cfg.tempWarningMin → classify t cfg cc = Severity.warning) ∧
    (cfg.tempWarningMax < t → t ≤ cfg.tempDangerMax → classify t cfg cc = Severity.warning) ∧
    (cfg.tempWarningMin ≤ t → t ≤ cfg.tempWarningMax → classify t cfg cc = Severity.good) ∧
    (displayTempClass t cfg cc = some (classify t cfg cc)) ∧
    (classify 15 ⟨18, 20, 26, 28⟩ false = Severity.danger ∧
     classify 15 ⟨18, 20, 26, 28⟩ true = Severity.good ∧
     classify 23 ⟨18, 20, 26, 28⟩ false = Severity.good ∧
     classify 29 ⟨18, 20, 26, 28⟩ true = Severity.danger) := by
  refine ⟨?_, ?_, ?_, ?_, ?_, ?_, ?_, by decide, by decide, by decide, by decide⟩
  · intro hcc hlow
    unfold classify
    rw [if_neg, if_neg]
    · push_neg
      constructor
      · intro hge
        linarith
      · intro hgt
        linarith
    · push_neg
      refine ⟨fun hl hf => ?_, by linarith⟩
      rw [hcc] at hf
      exact Bool.noConfusion hf
  · intro hcc hlow
    unfold classify
    rw [if_pos]
    exact Or.inl ⟨hlow, hcc⟩
  · intro hhigh
    unfold classify
    rw [if_pos]
    exact Or.inr hhigh
  · intro hge hlt
    unfold classify
    rw [if_neg, if_pos]
    · exact Or.inl ⟨hge, hlt⟩
    · push_neg
      refine ⟨fun hl => absurd hl (by linarith), by linarith⟩
  · intro hgt hle
    unfold classify
    rw [if_neg, if_pos]
    · exact Or.inr ⟨hgt, hle⟩
    · push_neg
      refine ⟨fun hl => absurd hl (by linarith), by linarith⟩
  · intro hge hle
    unfold classify
    rw [if_neg, if_neg]
    · push_neg
      constructor
      · intro hge2
        linarith
      · intro hgt
        linarith
    · push_neg
      refine ⟨fun hl => absurd hl (by linarith), by linarith⟩
  · unfold displayTempClass classify
    split_ifs with hc1 hc2 hc3 hc4 <;> try rfl
    exfalso
    push_neg at hc1 hc2 hc3 hc4
    rcases lt_or_le t cfg.tempDangerMin with hlow | hge
    · have hcc : cc = true := by
        rcases hc1 with ⟨hfn, _⟩
        cases cc
        · exact absurd rfl (hfn hlow)
        · rfl
      exact absurd hlow (not_lt.mpr (hc4 hcc))
    · rcases lt_or_le t cfg.tempWarningMin with hltw | hgew
      · linarith [hc2.1 hge]
      · rcases le_or_lt t cfg.tempWarningMax with hlew | hgtw
        · linarith [hc3 hgew]
        · linarith [hc2.2 hgtw, hc1.2]

/-- Witness for C4 at the default config {18, 20, 26, 28}: the four concrete
classifications of the claim. -/
theorem c4_witness :
    classify 15 ⟨18, 20, 26, 28⟩ false = Severity.danger ∧
    classify 15 ⟨18, 20, 26, 28⟩ true = Severity.good ∧
    classify 23 ⟨18, 20, 26, 28⟩ false = Severity.good ∧
    classify 29 ⟨18, 20, 26, 28⟩ true = Severity.danger :=
  (c4_threshold_classification ⟨18, 20, 26, 28⟩ 23 false (by norm_num) (by norm_num)
    (by norm_num)).2.2.2.2.2.2.2

/-- Every sample produced by the second-variant derivation carries the
attenuation computed from its own gravity and the pass's OG. -/
theorem deriveV2Aux_attenuation (og : ℚ) (l : List RawSample) (prev : Option RawSample) :
    ∀ e ∈ deriveV2Aux og prev l, e.attenuation = computeAttenuation og e.gravity := by
  induction l generalizing prev with
  | nil =>
    intro e he
    simp [deriveV2Aux] at he
  | cons t rest ih =>
    intro e he
    rw [deriveV2Aux] at he
    rcases List.mem_cons.mp he with rfl | hmem
    · rfl
    · exact ih (some t) e hmem

/-- Claim C1: every enriched sample carries
`attenuation = ((ogSG - fgSG) / (ogSG - 1)) * 100` with `ogSG = og/1000`,
`fgSG = gravity/1000`, unclamped (it can exceed 100 and go negative), and
defined as 0 in the degenerate case `ogSG = 1`. -/
theorem c1_attenuation_formula (og : ℚ) (l : List RawSample) :
    (∀ e ∈ deriveV2 og l, e.attenuation = computeAttenuation og e.gravity) ∧
    (og / 1000 ≠ 1 → ∀ g : ℚ,
      computeAttenuation og g = ((og / 1000 - g / 1000) / (og / 1000 - 1)) * 100) ∧
    (og / 1000 = 1 → ∀ g : ℚ, computeAttenuation og g = 0) ∧
    (100 < computeAttenuation 1063 997) ∧
    (computeAttenuation 1063 1070 < 0) := by
  refine ⟨deriveV2Aux_attenuation og l none, ?_, ?_, by norm_num [computeAttenuation],
    by norm_num [computeAttenuation]⟩
  · intro h g
    simp [computeAttenuation, h]
  · intro h g
    simp [computeAttenuation, h]

/-- Witness for C1 at OG 1063: a derived sample of gravity 1010 carries the
attenuation of the formula, and the degenerate OG 1000 yields 0. -/
theorem c1_witness :
    (enrichV2 1063 none ⟨0, 1010, 20, 100, 0⟩).attenuation
        = computeAttenuation 1063 (enrichV2 1063 none ⟨0, 1010, 20, 100, 0⟩).gravity ∧
    computeAttenuation 1063 1010 = ((1063 / 1000 - 1010 / 1000) / (1063 / 1000 - 1)) * 100 ∧
    computeAttenuation 1000 1010 = 0 :=
  ⟨(c1_attenuation_formula 1063 [⟨0, 1010, 20, 100, 0⟩]).1 _ (by simp [deriveV2, deriveV2Aux]),
   (c1_attenuation_formula 1063 []).2.1 (by norm_num) 1010,
   (c1_attenuation_formula 1000 []).2.2.1 (by norm_num) 1010⟩

/-- The relation between consecutive enriched samples asserted by the
gravity-velocity claim: the later sample carries the points-per-day rate of
gravity change from the earlier one. -/
def velocityStep (e e₂ : EnrichedSampleV2) : Prop :=
  e₂.gravityVelocity =
    some ((e₂.gravity - e.gravity) / ((((e₂.createdOn : ℚ)) - ((e.createdOn : ℚ))) / msPerDay))

/-- Consecutive samples of the second-variant derivation are related by
`velocityStep` whenever the raw timestamps strictly increase. -/
theorem deriveV2Aux_velocity_chain (og : ℚ) (l : List RawSample) (p : RawSample)
    (prev : Option RawSample)
    (hch : List.Chain (fun a b => a.createdOn < b.createdOn) p l) :
    List.Chain velocityStep (enrichV2 og prev p) (deriveV2Aux og (some p) l) := by
  induction l generalizing p prev with
  | nil => exact List.Chain.nil
  | cons q rest ih =>
    rcases List.chain_cons.mp hch with ⟨hpq, hrest⟩
    rw [deriveV2Aux]
    refine List.chain_cons.mpr ⟨?_, ih q (some p) hrest⟩
    show (enrichV2 og (some p) q).gravityVelocity = _
    simp [enrichV2, pointsPerDay, hpq.ne']

/-- Claim C8: in the second variant, the first enriched sample omits
`gravityVelocity`, and every later sample carries the points-per-day rate of
gravity change from its chronological predecessor, provided the (sorted)
samples have strictly increasing, hence distinct, timestamps. -/
theorem c8_gravity_velocity (og : ℚ) (l : List RawSample)
    (hchrono : l.Chain' (fun a b => a.createdOn < b.createdOn)) :
    (∀ e, (deriveV2 og l).head? = some e → e.gravityVelocity = none) ∧
    (deriveV2 og l).Chain' velocityStep := by
  constructor
  · intro e he
    cases l with
    | nil => simp [deriveV2, deriveV2Aux] at he
    | cons t rest =>
      rw [deriveV2, deriveV2Aux, List.head?_cons, Option.some_inj] at he
      rw [← he]
      rfl
  · cases l with
    | nil => exact List.chain'_nil
    | cons t rest =>
      have hrest : List.Chain (fun a b => a.createdOn < b.createdOn) t rest := hchrono
      rw [deriveV2, deriveV2Aux]
      show List.Chain velocityStep (enrichV2 og none t) (deriveV2Aux og (some t) rest)
      exact deriveV2Aux_velocity_chain og rest t none hrest

/-- Witness for C8: two samples one day apart, gravity falling from 1063 to
1040, derive a chain whose step is the minus-23-points-per-day velocity. -/
theorem c8_witness :
    (deriveV2 1063 [⟨0, 1063, 20, 100, 0⟩, ⟨86400000, 1040, 20, 100, 0⟩]).Chain' velocityStep :=
  (c8_gravity_velocity 1063 [⟨0, 1063, 20, 100, 0⟩, ⟨86400000, 1040, 20, 100, 0⟩]
    (by simp [List.chain'_cons, List.chain'_singleton])).2

/-- With no session and no manual OG, resolution is the gravity of the head
of the stably date-sorted telemetry. -/
theorem resolveOG_fallback (tel : List RawSample) :
    resolveOG none none tel = (sortByDateAsc tel).head?.map RawSample.gravity := by
  simp only [resolveOG, sessionOG]
  cases sortByDateAsc tel <;> rfl

/-- The head of the stably date-sorted telemetry is a member of the list and
has a minimal timestamp. -/
theorem sortByDateAsc_head_min (l : List RawSample) (h : RawSample) (t : List RawSample)
    (hst : sortByDateAsc l = h :: t) :
    h ∈ l ∧ ∀ b ∈ l, h.createdOn ≤ b.createdOn := by
  have hperm : List.Perm (sortByDateAsc l) l := List.perm_insertionSort byDate l
  have hsorted : List.Sorted byDate (sortByDateAsc l) := List.sorted_insertionSort byDate l
  rw [hst] at hperm hsorted
  constructor
  · exact hperm.mem_iff.mp (List.mem_cons_self h t)
  · intro b hb
    rcases List.mem_cons.mp (hperm.mem_iff.mpr hb) with rfl | hbt
    · exact le_refl _
    · exact (List.sorted_cons.mp hsorted).1 b hbt

/-- Counterexample to claim C5 as stated: with two samples sharing the
minimal `createdOn`, the stable sort keeps input order, so permuting the
telemetry changes the resolved fallback OG. -/
theorem c5_counterexample :
    List.Perm [(⟨0, 1060, 20, 100, 0⟩ : RawSample), ⟨0, 1050, 20, 100, 0⟩]
      [(⟨0, 1050, 20, 100, 0⟩ : RawSample), ⟨0, 1060, 20, 100, 0⟩] ∧
    resolveOG none none [(⟨0, 1050, 20, 100, 0⟩ : RawSample), ⟨0, 1060, 20, 100, 0⟩] ≠
      resolveOG none none [(⟨0, 1060, 20, 100, 0⟩ : RawSample), ⟨0, 1050, 20, 100, 0⟩] :=
  ⟨List.Perm.swap _ _ _, by decide⟩

/-- Claim C5, amended: with neither a session OG nor a manual OG, the
resolver returns the gravity of a sample with minimal `createdOn`; when the
timestamps are pairwise distinct (no ties), the result is invariant under
any permutation of the telemetry. -/
theorem c5_fallback_earliest (l l₂ : List RawSample) (hne : l ≠ [])
    (hinj : ∀ a ∈ l, ∀ b ∈ l, a.createdOn = b.createdOn → a = b)
    (hperm : l₂.Perm l) :
    resolveOG none none l₂ = resolveOG none none l ∧
    ∃ s ∈ l, resolveOG none none l = some s.gravity ∧
      ∀ b ∈ l, s.createdOn ≤ b.createdOn := by
  obtain ⟨h, t, hst⟩ : ∃ h t, sortByDateAsc l = h :: t := by
    cases hs : sortByDateAsc l with
    | nil =>
      exfalso
      apply hne
      have hlen := (List.perm_insertionSort byDate l).length_eq
      rw [show List.insertionSort byDate l = sortByDateAsc l from rfl, hs] at hlen
      exact List.length_eq_zero.mp hlen.symm
    | cons a b => exact ⟨a, b, rfl⟩
  obtain ⟨h₂, t₂, hst₂⟩ : ∃ h₂ t₂, sortByDateAsc l₂ = h₂ :: t₂ := by
    cases hs : sortByDateAsc l₂ with
    | nil =>
      exfalso
      have hlen := (List.perm_insertionSort byDate l₂).length_eq
      rw [show List.insertionSort byDate l₂ = sortByDateAsc l₂ from rfl, hs] at hlen
      have : l₂ = [] := List.length_eq_zero.mp hlen.symm
      rw [this] at hperm
      exact hne (hperm.symm.eq_nil)
    | cons a b => exact ⟨a, b, rfl⟩
  have H := sortByDateAsc_head_min l h t hst
  have H₂ := sortByDateAsc_head_min l₂ h₂ t₂ hst₂
  have hmem₂ : h₂ ∈ l := hperm.mem_iff.mp H₂.1
  have hmem : h ∈ l₂ := hperm.mem_iff.mpr H.1
  have hts : h.createdOn = h₂.createdOn :=
    le_antisymm (H.2 h₂ hmem₂) (H₂.2 h hmem)
  have heq : h = h₂ := hinj h H.1 h₂ hmem₂ hts
  refine ⟨?_, h, H.1, ?_, H.2⟩
  · rw [resolveOG_fallback, resolveOG_fallback, hst, hst₂, heq]
    rfl
  · rw [resolveOG_fallback, hst]
    rfl

/-- Witness for C5 (amended): two distinct-timestamp samples; swapping them
leaves the fallback OG unchanged. -/
theorem c5_witness :
    resolveOG none none [(⟨5, 1010, 20, 100, 0⟩ : RawSample), ⟨0, 1063, 20, 100, 0⟩] =
      resolveOG none none [(⟨0, 1063, 20, 100, 0⟩ : RawSample), ⟨5, 1010, 20, 100, 0⟩] :=
  (c5_fallback_earliest [⟨0, 1063, 20, 100, 0⟩, ⟨5, 1010, 20, 100, 0⟩]
    [⟨5, 1010, 20, 100, 0⟩, ⟨0, 1063, 20, 100, 0⟩]
    (by decide) (by decide) (List.Perm.swap _ _ _)).1

/-- Claim C10: the latest-reading selection of the display pass sorts the
device's telemetry array itself, so afterwards the sequence is ordered
newest-first; the samples themselves are unchanged (the new sequence is a
permutation of the old); on a concrete two-sample device the stored order
visibly changes. -/
theorem c10_display_sorts_in_place :
    (∀ d : Device, ((displayPass d).telemetry).Perm d.telemetry ∧
      List.Sorted byDateDesc (displayPass d).telemetry) ∧
    (displayPass { id := 1, activeProfileSession := none,
                   telemetry := [⟨0, 1063, 20, 100, 0, 0⟩, ⟨10, 1040, 20, 100, 0, 3⟩] } =
      { id := 1, activeProfileSession := none,
        telemetry := [⟨10, 1040, 20, 100, 0, 3⟩, ⟨0, 1063, 20, 100, 0, 0⟩] }) ∧
    ([(⟨0, 1063, 20, 100, 0, 0⟩ : EnrichedSample), ⟨10, 1040, 20, 100, 0, 3⟩] ≠
      [(⟨10, 1040, 20, 100, 0, 3⟩ : EnrichedSample), ⟨0, 1063, 20, 100, 0, 0⟩]) := by
  refine ⟨?_, by decide, by decide⟩
  intro d
  rw [displayPass]
  by_cases hd : d.telemetry.isEmpty
  · rw [if_pos hd]
    rw [List.isEmpty_iff] at hd
    rw [hd]
    exact ⟨List.Perm.refl _, List.sorted_nil⟩
  · rw [if_neg hd]
    exact ⟨List.perm_insertionSort byDateDesc d.telemetry,
      List.sorted_insertionSort byDateDesc d.telemetry⟩

end Rapt
